import Mathlib

/-!
Verification of the conversation orchestration core of the AI interview
caller backend (`backend/main.py`).

The embedding is shallow and executable:
* Python strings are `String` / `List Char`; `str.lower`, `str.strip` and
  `str.split()` are re-implemented below (`pyLower`, `pyStrip`, `wsTokens`).
* The regular expressions of `analyze_intent` only use word alternations
  with `\b` boundaries, `.*` gaps, `\s*` and `\d{1,2}`; they are modelled by
  the dedicated executable matchers below (word boundary = transition
  between a word character `[A-Za-z0-9_]` and a non-word character).
  Texts are assumed newline-free (`.` of the Python patterns never has to
  skip a newline); every concrete input used in the development is
  newline-free.
* Python floats holding the fixed confidence constants (0.95, 0.3, ...) are
  modelled as exact hundredths (a `Nat` number of hundredths: 0.95 ↦ 95),
  which represents every confidence constant and threshold of the source
  exactly; all comparisons performed by the code compare such constants.
* Timestamps (`datetime.now().isoformat()`) are modelled by an abstract
  `Nat` clock value passed to each operation.
* MongoDB collections are modelled as lists of documents; `update_one`
  with a `$set` updates the first matching document and reports whether
  the document actually changed (`modified_count > 0`).
-/

namespace InterviewCaller

/-- The apostrophe character (several pattern words of the source contain it). -/
def apos : Char := Char.ofNat 39

/-- Apostrophe as a one-character string. -/
def aposS : String := String.singleton apos

/-- Python `str.lower()` (ASCII, which is all the source's patterns use). -/
def pyLower (s : String) : String := ⟨s.data.map Char.toLower⟩

/-- Python `str.strip()`: remove whitespace from both ends. -/
def pyStrip (s : String) : String :=
  ⟨((s.data.dropWhile Char.isWhitespace).reverse.dropWhile Char.isWhitespace).reverse⟩

/-- Python `str.split()` (no argument): maximal runs of non-whitespace.
(Structured as a right fold so that it reduces definitionally.) -/
def wsTokens (l : List Char) : List (List Char) :=
  match l with
  | [] => []
  | c :: rest =>
    let ts := wsTokens rest
    if c.isWhitespace then ts
    else
      match rest, ts with
      | [], _ => [[c]]
      | d :: _, t0 :: trest =>
        if d.isWhitespace then [c] :: ts else (c :: t0) :: trest
      | _ :: _, [] => [[c]]

/-- Tokens of a string, as strings. -/
def pySplitWs (s : String) : List String := (wsTokens s.data).map String.mk

/-- Python `p in t` (contiguous substring test) on character lists. -/
def substrList (p t : List Char) : Bool :=
  match t with
  | [] => p.isEmpty
  | _ :: rest => p.isPrefixOf t || substrList p rest

/-- Python `p in t` on strings. -/
def substrS (p t : String) : Bool := substrList p.data t.data

/-- Python regex word character (`\w` for ASCII input). -/
def isWordChar (c : Char) : Bool := c.isAlphanum || c == '_'

/-- Wordness of an optional preceding character (`none` = string edge). -/
def isWordO : Option Char → Bool
  | none => false
  | some c => isWordChar c

/-- Wordness of the first character of the remaining text. -/
def headWord : List Char → Bool
  | [] => false
  | c :: _ => isWordChar c

/-- The `\b` assertion at a position: the wordness changes between the
previous character and the next one. -/
def bAt (prev : Option Char) (t : List Char) : Bool := isWordO prev != headWord t

/-- If `p` is a prefix of `t`, the remainder of `t`; `none` otherwise. -/
def dropPrefixCh : List Char → List Char → Option (List Char)
  | [], t => some t
  | _ :: _, [] => none
  | p :: ps, c :: cs => if p = c then dropPrefixCh ps cs else none

/-- `\b p \b` matches exactly at this position (for phrases that start and
end with a word character, which all phrase alternatives of the source do). -/
def wordAt (prev : Option Char) (p t : List Char) : Bool :=
  !isWordO prev &&
    (match dropPrefixCh p t with
     | some rest => !headWord rest
     | none => false)

/-- `re.search` of `\b p \b` in the text after an initial context character. -/
def occursWordFrom (prev : Option Char) (p t : List Char) : Bool :=
  wordAt prev p t ||
    match t with
    | [] => false
    | c :: rest => occursWordFrom (some c) p rest

/-- `re.search(r'\b(p)\b', t)` for one phrase alternative. -/
def occursWord (p t : List Char) : Bool := occursWordFrom none p t

/-- `re.search(r'\b(p1|p2|...)\b', t)`. -/
def matchWords (ps : List String) (t : List Char) : Bool :=
  ps.any fun p => occursWord p.data t

/-- `\s*` (greedy; the constructs that follow it never start with
whitespace, so the greedy skip is exact). -/
def skipWsAll (t : List Char) : List Char := t.dropWhile Char.isWhitespace

/-- `(\d{1,2})`: the possible remainders after consuming one or two digits. -/
def digits12 (t : List Char) : List (List Char) :=
  match t with
  | [] => []
  | c1 :: rest1 =>
    if c1.isDigit then
      match rest1 with
      | c2 :: rest2 => if c2.isDigit then [rest2, rest1] else [rest1]
      | [] => [rest1]
    else []

/-- `\s*(s1|s2|...)\b` where every alternative ends in a word character. -/
def sufTail (sufs : List String) (t : List Char) : Bool :=
  let t1 := skipWsAll t
  sufs.any fun p =>
    match dropPrefixCh p.data t1 with
    | some rest => !headWord rest
    | none => false

/-- `\s*(\d{1,2})\s*(am|pm)\b` from the current position. -/
def timeNum (t : List Char) : Bool :=
  (digits12 (skipWsAll t)).any (sufTail ["am", "pm"])

/-- `\b(at|@)?\s*(\d{1,2})\s*(am|pm)\b` matching exactly at this position. -/
def timeCoreAt (prev : Option Char) (t : List Char) : Bool :=
  bAt prev t &&
    ((match dropPrefixCh ['a', 't'] t with
      | some r => timeNum r
      | none => false) ||
     (match dropPrefixCh ['@'] t with
      | some r => timeNum r
      | none => false) ||
     timeNum t)

/-- Search for `timeCoreAt` anywhere in the remaining text. -/
def timeCoreFrom (prev : Option Char) (t : List Char) : Bool :=
  timeCoreAt prev t ||
    match t with
    | [] => false
    | c :: rest => timeCoreFrom (some c) rest

/-- The weekday alternatives of the time patterns. -/
def weekdayWords : List String :=
  ["monday", "tuesday", "wednesday", "thursday", "friday", "saturday", "sunday"]

/-- Time pattern 1: `\b(weekday)\b.*\b(at|@)?\s*(\d{1,2})\s*(am|pm)\b`. -/
def dayThenTimeFrom (prev : Option Char) (t : List Char) : Bool :=
  (weekdayWords.any fun p =>
    wordAt prev p.data t &&
      (match dropPrefixCh p.data t with
       | some rest => timeCoreFrom p.data.getLast? rest
       | none => false)) ||
    match t with
    | [] => false
    | c :: rest => dayThenTimeFrom (some c) rest

/-- Time pattern 2: `\b(\d{1,2})\s*(am|pm)\b.*\b(weekday)\b`.
The remainders after `(am|pm)\b` (context character is always `m`). -/
def ampmRests (t : List Char) : List (List Char) :=
  let t1 := skipWsAll t
  (["am", "pm"] : List String).filterMap fun p =>
    match dropPrefixCh p.data t1 with
    | some rest => if !headWord rest then some rest else none
    | none => none

/-- Search for time pattern 2 anywhere in the remaining text. -/
def timeThenDayFrom (prev : Option Char) (t : List Char) : Bool :=
  (bAt prev t &&
    ((digits12 t).any fun r =>
      (ampmRests r).any fun rest =>
        weekdayWords.any fun d => occursWordFrom (some 'm') d.data rest)) ||
    match t with
    | [] => false
    | c :: rest => timeThenDayFrom (some c) rest

/-- Time pattern 4: `\b(\d{1,2})\s*(am|pm|o'clock)\b`. -/
def clockFrom (prev : Option Char) (t : List Char) : Bool :=
  (bAt prev t &&
    (digits12 t).any (sufTail ["am", "pm", "o" ++ aposS ++ "clock"])) ||
    match t with
    | [] => false
    | c :: rest => clockFrom (some c) rest

/-- Rejection pattern 4: `\b(g1)\b.*\b(g2)\b`. -/
def seqWordsFrom (g1 g2 : List String) (prev : Option Char) (t : List Char) : Bool :=
  (g1.any fun p =>
    wordAt prev p.data t &&
      (match dropPrefixCh p.data t with
       | some rest => g2.any fun q => occursWordFrom p.data.getLast? q.data rest
       | none => false)) ||
    match t with
    | [] => false
    | c :: rest => seqWordsFrom g1 g2 (some c) rest

/-! ### Intent classifier (`analyze_intent`, main.py lines 710-796) -/

/-- `confirmation_patterns`: the word alternatives with their confidences,
in source order. -/
def confirmationFams : List (List String × Nat) :=
  [(["yes", "yeah", "yep", "yup", "absolutely", "definitely", "sure",
     "of course", "sounds good", "perfect", "great", "excellent"], 95),
   (["ok", "okay", "alright", "fine", "good", "works for me", "that works",
     "i can do that"], 85),
   (["confirm", "confirmed", "book", "schedule", "set it up",
     "let" ++ aposS ++ "s do it"], 90),
   (["available", "free", "open"], 75)]

/-- `rejection_patterns` 1-3 (pattern 4 is the two-group sequence pattern). -/
def rejectionFams : List (List String × Nat) :=
  [(["no", "nope", "not really", "can" ++ aposS ++ "t", "cannot", "unable",
     "unavailable"], 90),
   (["busy", "booked", "occupied", "not available", "not free"], 85),
   (["different time", "another time", "reschedule", "change",
     "doesn" ++ aposS ++ "t work", "won" ++ aposS ++ "t work"], 80)]

/-- First group of `rejection_patterns[3]` (the apology words). -/
def apologyWords : List String := ["sorry", "unfortunately", "afraid"]

/-- Second group of `rejection_patterns[3]`. -/
def apologyNegWords : List String := ["can" ++ aposS ++ "t", "cannot", "not", "no"]

/-- `availability_patterns`. -/
def availabilityFams : List (List String × Nat) :=
  [(["let me check", "check my calendar", "look at my schedule", "see what",
     "when am i"], 70),
   (["what times", "what slots", "what options", "available times",
     "available slots"], 80)]

/-- `politeness_patterns`. -/
def politenessFams : List (List String × Nat) :=
  [(["thank you", "thanks", "appreciate", "grateful"], 60),
   (["hello", "hi", "hey", "good morning", "good afternoon"], 60),
   (["sorry", "excuse me", "pardon"], 50)]

/-- First pattern family (in list order) whose word alternation matches. -/
def firstWordsConf (fams : List (List String × Nat)) (t : List Char) : Option Nat :=
  (fams.find? fun f => matchWords f.1 t).map (·.2)

/-- `time_patterns`, in source order with their confidences. -/
def timePatternConf (t : List Char) : Option Nat :=
  if dayThenTimeFrom none t then some (95)
  else if timeThenDayFrom none t then some (95)
  else if matchWords weekdayWords t then some (80)
  else if clockFrom none t then some (75)
  else if matchWords ["morning", "afternoon", "evening", "noon", "midnight"] t
    then some (60)
  else none

/-- The rejection block: patterns 1-3, then the apology-negation pattern. -/
def rejectionConf (t : List Char) : Option Nat :=
  match firstWordsConf rejectionFams t with
  | some c => some c
  | none => if seqWordsFrom apologyWords apologyNegWords none t then some (80) else none

/-- The five pattern blocks of `analyze_intent`, checked in source order;
`none` when no pattern at all matches (the fallback region is reached). -/
def patternsResult (t : List Char) : Option (String × Nat) :=
  match timePatternConf t with
  | some c => some ("time_mention", c)
  | none =>
  match firstWordsConf confirmationFams t with
  | some c => some ("confirmation", c)
  | none =>
  match rejectionConf t with
  | some c => some ("rejection", c)
  | none =>
  match firstWordsConf availabilityFams t with
  | some c => some ("checking_availability", c)
  | none =>
  match firstWordsConf politenessFams t with
  | some c => some ("polite_response", c)
  | none => none

/-- Single-word affirmative synonyms of the fallback region. -/
def yesSingles : List String :=
  ["yes", "yep", "yeah", "ok", "okay", "sure", "fine", "good"]

/-- Single-word negative synonyms of the fallback region. -/
def noSingles : List String := ["no", "nope", "nah"]

/-- `analyze_intent(text)` (main.py lines 710-796): pattern blocks first,
then the length/token-count fallback. -/
def analyze_intent (text : String) : String × Nat :=
  let tl := pyStrip (pyLower text)
  match patternsResult tl.data with
  | some r => r
  | none =>
    if tl.length < 3 then ("unclear", 10)
    else if (wsTokens tl.data).length = 1 then
      if yesSingles.contains tl then ("confirmation", 80)
      else if noSingles.contains tl then ("rejection", 80)
      else ("unclear", 40)
    else if 2 ≤ (wsTokens tl.data).length then ("unclear", 50)
    else ("unclear", 30)

/-! ### Slot matcher (`find_mentioned_time_slot`, main.py lines 1298-1305) -/

/-- The fixed slot catalog `TIME_SLOTS` (main.py lines 312-317). -/
def TIME_SLOTS : List String :=
  ["Monday at 10 AM", "Tuesday at 2 PM", "Wednesday at 11 AM", "Thursday at 3 PM"]

/-- The loop-body test of `find_mentioned_time_slot`:
`any(word in text_lower for word in slot.lower().split())`. -/
def slotMatchesSub (text slot : String) : Bool :=
  (wsTokens (pyLower slot).data).any fun w => substrList w (pyLower text).data

/-- `find_mentioned_time_slot(text, available_slots)`: first slot one of
whose lowercased label words occurs as a substring of the lowercased text. -/
def find_mentioned_time_slot (text : String) (available_slots : List String) :
    Option String :=
  available_slots.find? fun slot => slotMatchesSub text slot

/-- Modelled from the spec (§4.2), for the refinement comparison of C8 only:
the slot matcher as the spec words it — tokenize the label *and the
utterance* and ask for a shared token. -/
def find_slot_spec_tokenized (text : String) (available_slots : List String) :
    Option String :=
  available_slots.find? fun slot =>
    (pySplitWs (pyLower slot)).any fun w => (pySplitWs (pyLower text)).contains w

/-! ### Conversation sessions (main.py lines 320-347) -/

/-- One conversation turn (`ConversationTurn` dataclass). -/
structure ConversationTurn where
  turn_number : Nat
  candidate_input : String
  ai_response : String
  timestamp : Nat
  intent_detected : String
  confidence_score : Nat
deriving Repr, DecidableEq

/-- One conversation session (`ConversationSession` dataclass). The optional
candidate attachment is reduced to the candidate id, the only part the
modelled control flow reads. -/
structure ConversationSession where
  call_sid : String
  candidate_phone : String
  start_time : Nat
  end_time : Option Nat := none
  status : String := "active"
  confirmed_slot : Option String := none
  turns : List ConversationTurn := []
  candidate : Option String := none
deriving Repr, DecidableEq

/-- Python truthiness of an optional string (`None` and `""` are falsy). -/
def pyTruthyS : Option String → Bool
  | none => false
  | some s => !s.isEmpty

/-! ### The speech webhook (`process_speech`, main.py lines 1879-2265)

Side effects on external collaborators (email sending, MongoDB candidate
updates, logging) do not feed back into the session state; they are
modelled separately (`finalize_scheduling` below).  The optional
LLM-generated reply used in the unclassified `scheduling` branch is an
external collaborator and enters as the `genResp` argument; the email
outcome enters as `email_sent`. -/

/-- Reply of the `initial` confirmation branch (line 1947). -/
def resp_slots : String :=
  "Wonderful! We have several interview slots available. Let me share them with you: Monday at 10 AM, Tuesday at 2 PM, Wednesday at 11 AM, or Thursday at 3 PM. Which of these times works best for your schedule?"

/-- Reply of the `initial` rejection branch (line 1950). -/
def resp_email_pref : String :=
  "I completely understand. Would you prefer if we sent you an email with our available times so you can respond when convenient?"

/-- Reply of the `initial` fallback branch (line 1953). -/
def resp_minute : String :=
  "No problem at all. I" ++ aposS ++ "m calling to schedule your interview. Do you have just a minute to go over some available times?"

/-- Reply after a slot is committed on the confirmation path (lines 2055-2058). -/
def resp_scheduled (slot : String) (email_sent : Bool) : String :=
  if email_sent then
    "Perfect! I have you scheduled for " ++ slot ++ ". You" ++ aposS ++ "ll receive a detailed confirmation email shortly with all the interview information. We" ++ aposS ++ "re looking forward to meeting with you!"
  else
    "Perfect! I have you scheduled for " ++ slot ++ ". We" ++ aposS ++ "ll follow up with the interview details. We" ++ aposS ++ "re looking forward to meeting with you!"

/-- Reply when confirmation carries no recognizable slot (line 2062). -/
def resp_which_time : String :=
  "Great! Just to confirm, which time works best for you? We have Monday at 10 AM, Tuesday at 2 PM, Wednesday at 11 AM, or Thursday at 3 PM."

/-- Reply of the `scheduling` rejection branch (line 2065). -/
def resp_flexible : String :=
  "I understand those times don" ++ aposS ++ "t work. We" ++ aposS ++ "re flexible with scheduling. Would you prefer morning or afternoon slots? We can also look at other days."

/-- Reply after a slot is committed on the day-mention path (lines 2155-2158). -/
def resp_down (slot : String) (email_sent : Bool) : String :=
  if email_sent then
    "Excellent! I have you down for " ++ slot ++ ". You" ++ aposS ++ "ll receive a detailed confirmation email with all the interview information. Thank you so much!"
  else
    "Excellent! I have you down for " ++ slot ++ ". We" ++ aposS ++ "ll follow up with all the interview details. Thank you so much!"

/-- Reply when a day is mentioned but no slot matches (line 2162). -/
def resp_day_pref : String :=
  "I heard you mention a day preference. Let me repeat our exact times: Monday at 10 AM, Tuesday at 2 PM, Wednesday at 11 AM, or Thursday at 3 PM. Which specific time works?"

/-- Reply of the `closing` stage (line 2169). -/
def resp_closing : String :=
  "Thank you for your time today. We" ++ aposS ++ "ll send you an email with our available interview times and you can respond at your convenience. Have a great day!"

/-- Reply of the turn cap (line 2183). -/
def resp_cap : String :=
  "Thank you so much for your time. We" ++ aposS ++ "ll follow up by email with scheduling details. Have a wonderful day!"

/-- The substring shortcut words of the `initial` confirmation branch. -/
def yesInitialWords : List String := ["yes", "yeah", "sure", "available", "okay", "ok"]

/-- The substring shortcut words of the `initial` rejection branch. -/
def noInitialWords : List String :=
  ["no", "not", "busy", "can" ++ aposS ++ "t", "cannot"]

/-- The day words of the opportunistic day-mention branch (line 2067). -/
def schedDayWords : List String := ["monday", "tuesday", "wednesday", "thursday"]

/-- `conversation_stage` (line 1941). -/
def conversationStage (turn_number : Nat) : String :=
  if turn_number = 2 then "initial"
  else if turn_number < 5 then "scheduling"
  else "closing"

/-- The stage dispatch of `process_speech` (lines 1943-2179): session after
the stage-specific mutations, the reply, and `next_action`. -/
def stageStep (s : ConversationSession) (speech_result intent : String)
    (intent_confidence : Nat) (email_sent : Bool) (genResp : String)
    (now turn_number : Nat) : ConversationSession × String × String :=
  let low := pyLower speech_result
  let stage := conversationStage turn_number
  if stage = "initial" then
    if intent = "confirmation" ∨ yesInitialWords.any (fun w => substrS w low) then
      (s, resp_slots, "gather_schedule")
    else if intent = "rejection" ∨ noInitialWords.any (fun w => substrS w low) then
      (s, resp_email_pref, "gather_email_preference")
    else
      (s, resp_minute, "gather_availability")
  else if stage = "scheduling" then
    if intent = "confirmation" ∧ 60 < intent_confidence then
      match find_mentioned_time_slot speech_result TIME_SLOTS with
      | some slot =>
        ({s with confirmed_slot := some slot, status := "completed", end_time := some now},
          resp_scheduled slot email_sent, "end_call")
      | none => (s, resp_which_time, "gather_specific_time")
    else if intent = "rejection" then
      (s, resp_flexible, "gather_preferences")
    else if schedDayWords.any (fun d => substrS d low) then
      match find_mentioned_time_slot speech_result TIME_SLOTS with
      | some slot =>
        ({s with confirmed_slot := some slot, status := "completed", end_time := some now},
          resp_down slot email_sent, "end_call")
      | none => (s, resp_day_pref, "gather_specific_time")
    else
      (s, genResp, "continue_gathering")
  else
    ({s with status := "failed", end_time := some now}, resp_closing, "end_call")

/-- Observable outcome of the speech webhook: either the early low-quality
re-prompt (lines 1892-1903, the session is not touched) or a computed
reply; `hangup` tells whether the generated TwiML ends the call. -/
inductive SpeechOutcome where
  | reprompt
  | reply (session : ConversationSession) (ai_response next_action : String) (hangup : Bool)
deriving Repr, DecidableEq

/-- `process_speech` past the input guard: intent analysis, stage dispatch,
turn cap (lines 2181-2198), turn append (lines 2200-2210) and TwiML choice
(lines 2214-2257). `speech_result` is the stripped transcript. -/
def process_speech_core (s : ConversationSession) (speech_result : String)
    (email_sent : Bool) (genResp : String) (now : Nat) : SpeechOutcome :=
  let ic := analyze_intent speech_result
  let turn_number := s.turns.length + 1
  let r1 := stageStep s speech_result ic.1 ic.2 email_sent genResp now turn_number
  let s2 := if 6 < turn_number then
      {r1.1 with
        status := if pyTruthyS r1.1.confirmed_slot then "completed" else "failed",
        end_time := some now}
    else r1.1
  let ai2 := if 6 < turn_number then resp_cap else r1.2.1
  let na2 := if 6 < turn_number then "end_call" else r1.2.2
  let turn : ConversationTurn :=
    ⟨turn_number, speech_result, ai2, now, ic.1, ic.2⟩
  let s3 := {s2 with turns := s2.turns ++ [turn]}
  SpeechOutcome.reply s3 ai2 na2
    (decide (na2 = "end_call" ∨ s3.status = "completed" ∨ s3.status = "failed"))

/-- `process_speech` for an existing session: the input guard of lines
1892-1903 (empty, too-short or low-confidence transcript → immediate
re-prompt without touching the session), then the full pipeline. -/
def process_speech (s : ConversationSession) (speech_raw : String)
    (confidence : Nat) (email_sent : Bool) (genResp : String) (now : Nat) :
    SpeechOutcome :=
  let speech_result := pyStrip speech_raw
  if speech_result.length < 3 ∨ confidence < 30 then
    SpeechOutcome.reprompt
  else
    process_speech_core s speech_result email_sent genResp now

/-- The session as it stands after a webhook outcome. -/
def sessionAfter (s : ConversationSession) : SpeechOutcome → ConversationSession
  | .reprompt => s
  | .reply s' _ _ _ => s'

/-- The call-started webhook (`twilio_voice`, main.py lines 1844-1854):
unconditionally appends a turn numbered 1. The greeting text is produced
from candidate data and enters as a parameter. -/
def twilio_voice_turn (s : ConversationSession) (from_number greeting : String)
    (now : Nat) : ConversationSession :=
  {s with turns := s.turns ++
    [⟨1, "[CALL INITIATED] From: " ++ from_number, greeting, now, "call_start", 100⟩]}

/-- A telephony callback for one call id. -/
inductive CallEvent where
  | callStarted (from_number greeting : String) (now : Nat)
  | speechResult (speech : String) (confidence : Nat) (email_sent : Bool)
      (genResp : String) (now : Nat)
deriving Repr, DecidableEq

/-- Effect of one callback on the session of its call id. -/
def stepSession (s : ConversationSession) : CallEvent → ConversationSession
  | .callStarted f g n => twilio_voice_turn s f g n
  | .speechResult sp c es g n => sessionAfter s (process_speech s sp c es g n)

/-- The session freshly created by `get_or_create_session` (lines 698-708). -/
def initSession (call_sid candidate_phone : String) (t0 : Nat) :
    ConversationSession :=
  { call_sid := call_sid, candidate_phone := candidate_phone, start_time := t0 }

/-- Run a sequence of callbacks for one call id. -/
def runCall (s : ConversationSession) (events : List CallEvent) :
    ConversationSession :=
  events.foldl stepSession s

/-- `[a, a+1, ..., a+n-1]`: the expected gapless turn numbering. -/
def iotaFrom (a : Nat) : Nat → List Nat
  | 0 => []
  | n + 1 => a :: iotaFrom (a + 1) n

/-! ### Candidate store: Contact Governor and Scheduling Finalizer

Documents of the `shortlistedcandidates` collection, restricted to the
fields the modelled functions read or write.  Dictionary `get` with a
default is modelled by `Option.getD`.  The lookup key (`_id` ObjectId) is
modelled by the `candidate_id` field. -/

/-- `call_tracking.interview_details` as written by the finalizer. -/
structure InterviewDetails where
  scheduled_slot : Option String := none
  scheduled_at : Nat := 0
  call_sid : Option String := none
  email_sent : Bool := false
  confirmation_sent_at : Option Nat := none
deriving Repr, DecidableEq

/-- The `call_tracking` sub-document. -/
structure CallTracking where
  status : Option String := none
  total_attempts : Option Nat := none
  max_attempts : Option Nat := none
  interview_details : Option InterviewDetails := none
  updated_at : Option Nat := none
deriving Repr, DecidableEq

/-- A candidate document. -/
structure CandidateDoc where
  candidate_id : String
  call_tracking : CallTracking := {}
  interviewStatus : Option String := none
  scheduledInterviewDate : Option String := none
  lastCallSid : Option String := none
  updatedAt : Option Nat := none
deriving Repr, DecidableEq

/-- Return value of the Contact Governor check. -/
structure CallStatusResult where
  can_call : Bool
  reason : String
  attempts : Nat
deriving Repr, DecidableEq

/-- `get_candidate_call_status` (main.py lines 1235-1296), the Contact
Governor used by `make_actual_call` before placing a call. -/
def get_candidate_call_status (store : List CandidateDoc) (cid : String) :
    CallStatusResult :=
  match store.find? (fun d => d.candidate_id == cid) with
  | none => ⟨true, "New candidate", 0⟩
  | some doc =>
    let total_attempts := doc.call_tracking.total_attempts.getD 0
    let max_attempts := doc.call_tracking.max_attempts.getD 3
    let status := doc.call_tracking.status.getD "active"
    if status = "interview_scheduled" then
      ⟨false, "Interview already scheduled", total_attempts⟩
    else if max_attempts ≤ total_attempts then
      ⟨false, "Maximum attempts reached (" ++ toString total_attempts ++ "/"
        ++ toString max_attempts ++ ")", total_attempts⟩
    else
      ⟨true, "Can receive calls (" ++ toString total_attempts ++ "/"
        ++ toString max_attempts ++ ")", total_attempts⟩

/-- The `interview_details` argument dictionary of
`update_candidate_interview_scheduled`. -/
structure InterviewDetailsArg where
  scheduled_slot : Option String := none
  scheduled_at : Option Nat := none
  call_sid : Option String := none
  email_sent : Bool := false
deriving Repr, DecidableEq

/-- The `$set` performed by `update_candidate_interview_scheduled`
(main.py lines 967-985) on the matched document. -/
def applyScheduledSet (doc : CandidateDoc) (details : InterviewDetailsArg)
    (now : Nat) : CandidateDoc :=
  {doc with call_tracking := {doc.call_tracking with
    status := some "interview_scheduled",
    interview_details := some {
      scheduled_slot := details.scheduled_slot,
      scheduled_at := details.scheduled_at.getD now,
      call_sid := details.call_sid,
      email_sent := details.email_sent,
      confirmation_sent_at := if details.email_sent then some now else none },
    updated_at := some now }}

/-- MongoDB `update_one`: update the first matching document; the flag is
`modified_count > 0` (the document actually changed). -/
def updateFirst (p : CandidateDoc → Bool) (f : CandidateDoc → CandidateDoc) :
    List CandidateDoc → List CandidateDoc × Bool
  | [] => ([], false)
  | d :: rest =>
    if p d then (f d :: rest, decide (f d ≠ d))
    else
      let r := updateFirst p f rest
      (d :: r.1, r.2)

/-- `update_candidate_interview_scheduled` (main.py lines 937-1020). -/
def update_candidate_interview_scheduled (store : List CandidateDoc)
    (cid : String) (details : InterviewDetailsArg) (now : Nat) :
    List CandidateDoc × Bool :=
  updateFirst (fun d => d.candidate_id == cid)
    (fun d => applyScheduledSet d details now) store

/-- The `$set` performed by `update_interview_status` (main.py lines
1195-1218) on the matched document. -/
def applyStatusSet (doc : CandidateDoc) (status : String)
    (confirmed_slot call_sid : Option String) (now : Nat) : CandidateDoc :=
  {doc with
    interviewStatus := some status,
    updatedAt := some now,
    scheduledInterviewDate :=
      if pyTruthyS confirmed_slot then confirmed_slot else doc.scheduledInterviewDate,
    lastCallSid := if pyTruthyS call_sid then call_sid else doc.lastCallSid}

/-- `update_interview_status` (main.py lines 1175-1233). -/
def update_interview_status (store : List CandidateDoc) (cid status : String)
    (confirmed_slot call_sid : Option String) (now : Nat) :
    List CandidateDoc × Bool :=
  updateFirst (fun d => d.candidate_id == cid)
    (fun d => applyStatusSet d status confirmed_slot call_sid now) store

/-- The Scheduling Finalizer as invoked on the day-mention completion path
(main.py lines 2127-2141): the interview-details update followed, when it
modified the document, by the interview-status update. -/
def finalize_scheduling (store : List CandidateDoc) (cid call_sid slot : String)
    (email_sent : Bool) (now : Nat) : List CandidateDoc :=
  let r := update_candidate_interview_scheduled store cid
    ⟨some slot, some now, some call_sid, email_sent⟩ now
  if r.2 then
    (update_interview_status r.1 cid "interview_scheduled" (some slot)
      (some call_sid) now).1
  else r.1

example : analyze_intent "Yes, Tuesday at 2 PM works great" = ("time_mention", 95) := by decide

example : analyze_intent "nah" = ("rejection", 80) := by decide

example : analyze_intent "hello there" = ("polite_response", 60) := by decide

example : find_mentioned_time_slot "great" TIME_SLOTS = some "Monday at 10 AM" := by decide

example : find_mentioned_time_slot "Yes, Tuesday at 2 PM works great" TIME_SLOTS =
    some "Monday at 10 AM" := by decide

example : find_slot_spec_tokenized "great" TIME_SLOTS = none := by decide

/-! ### Helper lemmas -/

theorem conversationStage_closing {tn : Nat} (h : 5 ≤ tn) :
    conversationStage tn = "closing" := by
  unfold conversationStage
  rw [if_neg (by omega), if_neg (by omega)]

theorem conversationStage_scheduling {tn : Nat} (h2 : tn ≠ 2) (h5 : tn < 5) :
    conversationStage tn = "scheduling" := by
  unfold conversationStage
  rw [if_neg h2, if_pos h5]

/-- No branch of the stage dispatch touches the recorded turns. -/
theorem stageStep_turns (s : ConversationSession) (sr i : String) (c : Nat)
    (es : Bool) (g : String) (now tn : Nat) :
    (stageStep s sr i c es g now tn).1.turns = s.turns := by
  unfold stageStep
  dsimp only
  repeat' split <;> try rfl

/-- In the closing stage the session is failed and the call ended. -/
theorem stageStep_closing (s : ConversationSession) (sr i : String) (c : Nat)
    (es : Bool) (g : String) (now tn : Nat) (h : 5 ≤ tn) :
    stageStep s sr i c es g now tn =
      ({s with status := "failed", end_time := some now}, resp_closing, "end_call") := by
  unfold stageStep
  rw [conversationStage_closing h, if_neg (by decide), if_neg (by decide)]

/-- The opportunistic day-mention completion path of the scheduling stage
(main.py lines 2067-2160). -/
theorem stageStep_day_complete (s : ConversationSession) (sr i : String)
    (c : Nat) (es : Bool) (g : String) (now tn : Nat) (slot : String)
    (hstage : conversationStage tn = "scheduling")
    (hnc : ¬(i = "confirmation" ∧ 60 < c))
    (hnr : i ≠ "rejection")
    (hday : (schedDayWords.any fun w => substrS w (pyLower sr)) = true)
    (hslot : find_mentioned_time_slot sr TIME_SLOTS = some slot) :
    stageStep s sr i c es g now tn =
      ({s with
          confirmed_slot := some slot
          status := "completed"
          end_time := some now}, resp_down slot es, "end_call") := by
  simp only [stageStep, hstage, hslot, if_true]
  rw [if_neg hnc, if_neg hnr, if_pos hday, if_neg (by decide : ¬("scheduling" : String) = "initial")]

theorem process_speech_guard (s : ConversationSession) (sp : String)
    (conf : Nat) (es : Bool) (g : String) (now : Nat)
    (h : (pyStrip sp).length < 3 ∨ conf < 30) :
    process_speech s sp conf es g now = SpeechOutcome.reprompt := by
  unfold process_speech
  rw [if_pos h]

theorem process_speech_run (s : ConversationSession) (sp : String)
    (conf : Nat) (es : Bool) (g : String) (now : Nat)
    (h1 : 3 ≤ (pyStrip sp).length) (h2 : 30 ≤ conf) :
    process_speech s sp conf es g now =
      process_speech_core s (pyStrip sp) es g now := by
  unfold process_speech
  rw [if_neg (by push_neg; exact ⟨by omega, by omega⟩)]

/-- One run of the pipeline appends exactly one turn, numbered
`turns.length + 1`. -/
theorem core_turn_numbers (s : ConversationSession) (sr : String) (es : Bool)
    (g : String) (now : Nat) :
    (sessionAfter s (process_speech_core s sr es g now)).turns.map
        (fun t => t.turn_number)
      = s.turns.map (fun t => t.turn_number) ++ [s.turns.length + 1] := by
  unfold process_speech_core sessionAfter
  by_cases hc : 6 < s.turns.length + 1 <;>
    simp [hc, stageStep_turns]

/-! ### Concrete sessions and stores used by witnesses and counterexamples -/

/-- A generic already-recorded turn. -/
def sampleTurn (n : Nat) : ConversationTurn := ⟨n, "x", "y", 0, "unclear", 50⟩

/-- An active session with `n` recorded turns. -/
def sessionWithTurns (n : Nat) : ConversationSession :=
  { call_sid := "CA1", candidate_phone := "+15550100", start_time := 0,
    turns := (iotaFrom 1 n).map sampleTurn }

/-- A session that already completed with a confirmed slot. -/
def completedSession : ConversationSession :=
  { sessionWithTurns 4 with
    status := "completed"
    confirmed_slot := some "Tuesday at 2 PM" }

/-- An active session about to take turn 7. -/
def sixTurnSession : ConversationSession := sessionWithTurns 6

/-- An active session about to take turn 2. -/
def oneTurnSession : ConversationSession := sessionWithTurns 1

/-- An active session about to take turn 3 (scheduling stage). -/
def twoTurnSession : ConversationSession := sessionWithTurns 2

/-! ### Claims -/

/-- C1: if a speech-result callback is processed whose turn number
(`len(session.turns) + 1`) exceeds 6 and the session was not previously
terminated, then on that exact turn the status is forced to `completed`
when `confirmed_slot` is set and to `failed` otherwise, the end time is
set, and the call is ended. -/
theorem C1_turn_cap_forces_terminal (s : ConversationSession) (sp : String)
    (conf : Nat) (es : Bool) (g : String) (now : Nat)
    (hlen : 3 ≤ (pyStrip sp).length) (hconf : 30 ≤ conf)
    (hturn : 6 < s.turns.length + 1) (hactive : s.status = "active") :
    ∃ s', process_speech s sp conf es g now =
        SpeechOutcome.reply s' resp_cap "end_call" true ∧
      (s.confirmed_slot = none → s'.status = "failed") ∧
      (∀ sl, s.confirmed_slot = some sl → sl ≠ "" → s'.status = "completed") ∧
      s'.end_time = some now := by
  rw [process_speech_run s sp conf es g now hlen hconf]
  have hss := stageStep_closing s (pyStrip sp) (analyze_intent (pyStrip sp)).1
    (analyze_intent (pyStrip sp)).2 es g now (s.turns.length + 1) (by omega)
  simp only [process_speech_core, hss, if_pos hturn]
  refine ⟨_, rfl, ?_, ?_, rfl⟩
  · intro hnone
    simp [pyTruthyS, hnone]
  · intro sl hsl hne
    simp [pyTruthyS, hsl, String.isEmpty_iff, hne]

/-- Witness for C1 at a concrete input: an active six-turn session with no
confirmed slot is forced to `failed` with the canned cap reply. -/
theorem C1_witness :
    3 ≤ (pyStrip "hello there").length ∧ (30 : Nat) ≤ 90 ∧
      6 < sixTurnSession.turns.length + 1 ∧ sixTurnSession.status = "active" ∧
      ∃ s', process_speech sixTurnSession "hello there" 90 false "gen" 9 =
          SpeechOutcome.reply s' resp_cap "end_call" true ∧
        (sixTurnSession.confirmed_slot = none → s'.status = "failed") ∧
        (∀ sl, sixTurnSession.confirmed_slot = some sl → sl ≠ "" →
          s'.status = "completed") ∧
        s'.end_time = some 9 :=
  ⟨by decide, by decide, by decide, by decide,
    C1_turn_cap_forces_terminal sixTurnSession "hello there" 90 false "gen" 9
      (by decide) (by decide) (by decide) (by decide)⟩

/-- C2 fails on the code: a session that already completed with a confirmed
slot, on a later callback (turn 5, closing stage), has its status
overwritten to `failed` — the policy is re-run, terminal states are not
sticky. -/
theorem C2_counterexample :
    completedSession.status = "completed" ∧
    completedSession.confirmed_slot = some "Tuesday at 2 PM" ∧
    (sessionAfter completedSession
      (process_speech completedSession "hello there" 90 false "gen" 9)).status
      = "failed" := by decide

/-- C2 amended: there is no terminal short-circuit — a subsequent
speech-result callback that passes the input guard re-runs the stage
dispatch; in particular any session (completed ones included) whose next
turn number is 5 or 6 is set to `failed` by the closing stage. -/
theorem C2_amended_policy_reruns (s : ConversationSession) (sp : String)
    (conf : Nat) (es : Bool) (g : String) (now : Nat)
    (hcomp : s.status = "completed")
    (hlen : 3 ≤ (pyStrip sp).length) (hconf : 30 ≤ conf)
    (hturns : s.turns.length = 4 ∨ s.turns.length = 5) :
    (sessionAfter s (process_speech s sp conf es g now)).status = "failed" := by
  rw [process_speech_run s sp conf es g now hlen hconf]
  have hss := stageStep_closing s (pyStrip sp) (analyze_intent (pyStrip sp)).1
    (analyze_intent (pyStrip sp)).2 es g now (s.turns.length + 1) (by omega)
  simp only [process_speech_core, hss, sessionAfter,
    if_neg (show ¬6 < s.turns.length + 1 by omega)]

/-- Witness for the amended C2 at a concrete input. -/
theorem C2_amended_witness :
    completedSession.status = "completed" ∧
      3 ≤ (pyStrip "hello there").length ∧ (30 : Nat) ≤ 90 ∧
      (completedSession.turns.length = 4 ∨ completedSession.turns.length = 5) ∧
      (sessionAfter completedSession
        (process_speech completedSession "hello there" 90 false "gen" 9)).status
        = "failed" :=
  ⟨by decide, by decide, by decide, Or.inl (by decide),
    C2_amended_policy_reruns completedSession "hello there" 90 false "gen" 9
      (by decide) (by decide) (by decide) (Or.inl (by decide))⟩

/-- C5 fails on the code: an empty/low-confidence callback returns the
retry TwiML *before* touching the session — no turn is recorded, the turn
number does not increment. -/
theorem C5_counterexample :
    process_speech oneTurnSession "" 10 false "gen" 5 = SpeechOutcome.reprompt ∧
    (sessionAfter oneTurnSession
      (process_speech oneTurnSession "" 10 false "gen" 5)).turns.length
      = oneTurnSession.turns.length := by decide

/-- C5 amended: on an empty transcript or one with confidence below 0.3
the classifier is never reached, the answer is the fixed re-prompt, and
the session — stage and turns alike — is left completely untouched, so
such callbacks do not count toward the turn cap. -/
theorem C5_amended_guard_reprompt (s : ConversationSession) (sp : String)
    (conf : Nat) (es : Bool) (g : String) (now : Nat)
    (h : pyStrip sp = "" ∨ conf < 30) :
    process_speech s sp conf es g now = SpeechOutcome.reprompt ∧
    sessionAfter s (process_speech s sp conf es g now) = s := by
  have hg : (pyStrip sp).length < 3 ∨ conf < 30 := by
    rcases h with h | h
    · left; rw [h]; decide
    · right; exact h
  rw [process_speech_guard _ _ _ _ _ _ hg]
  exact ⟨rfl, rfl⟩

/-- Witness for the amended C5 at the concrete scenario input
(empty utterance, transcript confidence 0.1). -/
theorem C5_amended_witness :
    (pyStrip "" = "" ∨ (10 : Nat) < 30) ∧
      process_speech oneTurnSession "" 10 false "gen" 5 =
        SpeechOutcome.reprompt ∧
      sessionAfter oneTurnSession
        (process_speech oneTurnSession "" 10 false "gen" 5) = oneTurnSession :=
  ⟨Or.inl (by decide),
    (C5_amended_guard_reprompt oneTurnSession "" 10 false "gen" 5
      (Or.inl (by decide))).1,
    (C5_amended_guard_reprompt oneTurnSession "" 10 false "gen" 5
      (Or.inl (by decide))).2⟩

/-- The scenario utterance of C3. -/
def utterC3 : String := "Yes, Tuesday at 2 PM works great"

/-- C3 fails on the code: for "Yes, Tuesday at 2 PM works great" the slot
matcher returns "Monday at 10 AM" — the first catalog entry, because its
label word "at" occurs in the utterance — not "Tuesday at 2 PM"; the
session completes with the wrong slot. -/
theorem C3_counterexample :
    analyze_intent utterC3 = ("time_mention", 95) ∧
    find_mentioned_time_slot utterC3 TIME_SLOTS = some "Monday at 10 AM" ∧
    find_mentioned_time_slot utterC3 TIME_SLOTS ≠ some "Tuesday at 2 PM" ∧
    (sessionAfter twoTurnSession
      (process_speech twoTurnSession utterC3 90 false "gen" 9)).confirmed_slot
      = some "Monday at 10 AM" := by decide

/-- C3 amended: in the scheduling stage (turn 3 or 4) with transcript
confidence at or above threshold, the utterance is classified
`time_mention` with confidence 0.95 (time patterns have priority over
confirmation), the slot matcher returns "Monday at 10 AM" (the first
catalog entry sharing the substring "at" with the utterance), and the
session ends `completed` with confirmed_slot "Monday at 10 AM". -/
theorem C3_amended_scenario (s : ConversationSession) (conf : Nat) (es : Bool)
    (g : String) (now : Nat) (hconf : 30 ≤ conf)
    (hturns : s.turns.length = 2 ∨ s.turns.length = 3) :
    ∃ s', process_speech s utterC3 conf es g now =
        SpeechOutcome.reply s' (resp_down "Monday at 10 AM" es) "end_call" true ∧
      s'.status = "completed" ∧
      s'.confirmed_slot = some "Monday at 10 AM" ∧
      analyze_intent utterC3 = ("time_mention", 95) := by
  have hpy : pyStrip utterC3 = utterC3 := by decide
  have hlen : 3 ≤ (pyStrip utterC3).length := by decide
  have hai : analyze_intent utterC3 = ("time_mention", 95) := by decide
  have hday : (schedDayWords.any fun w => substrS w (pyLower utterC3)) = true := by
    decide
  have hslot : find_mentioned_time_slot utterC3 TIME_SLOTS =
      some "Monday at 10 AM" := by decide
  rw [process_speech_run s utterC3 conf es g now hlen hconf, hpy]
  rcases hturns with hn | hn <;>
  · simp only [process_speech_core, hai]
    rw [stageStep_day_complete s utterC3 "time_mention" 95 es g now
      (s.turns.length + 1) "Monday at 10 AM" (by rw [hn]; decide) (by decide)
      (by decide) hday hslot]
    simp only [hn]
    refine ⟨_, rfl, ?_, ?_, ?_⟩
    · rfl
    · rfl
    · trivial

/-- Witness for the amended C3: the scenario run on a concrete session at
turn 3. -/
theorem C3_amended_witness :
    (30 : Nat) ≤ 90 ∧
      (twoTurnSession.turns.length = 2 ∨ twoTurnSession.turns.length = 3) ∧
      ∃ s', process_speech twoTurnSession utterC3 90 false "gen" 9 =
          SpeechOutcome.reply s' (resp_down "Monday at 10 AM" false)
            "end_call" true ∧
        s'.status = "completed" ∧
        s'.confirmed_slot = some "Monday at 10 AM" ∧
        analyze_intent utterC3 = ("time_mention", 95) :=
  ⟨by decide, Or.inl (by decide),
    C3_amended_scenario twoTurnSession 90 false "gen" 9 (by decide)
      (Or.inl (by decide))⟩

/-- C4: the Contact Governor (`get_candidate_call_status`) disallows calls
whenever the candidate's tracking status is `interview_scheduled`,
regardless of the attempt count; otherwise it allows the call exactly when
`total_attempts < max_attempts` (with defaults 0 and 3 for absent fields). -/
theorem C4_contact_governor (store : List CandidateDoc) (cid : String)
    (doc : CandidateDoc)
    (hfind : store.find? (fun d => d.candidate_id == cid) = some doc) :
    (doc.call_tracking.status.getD "active" = "interview_scheduled" →
      (get_candidate_call_status store cid).can_call = false) ∧
    (doc.call_tracking.status.getD "active" ≠ "interview_scheduled" →
      ((get_candidate_call_status store cid).can_call = true ↔
        doc.call_tracking.total_attempts.getD 0 <
          doc.call_tracking.max_attempts.getD 3)) := by
  unfold get_candidate_call_status
  rw [hfind]
  constructor
  · intro h
    simp only [if_pos h]
  · intro h
    simp only [if_neg h]
    by_cases hle : doc.call_tracking.max_attempts.getD 3 ≤
        doc.call_tracking.total_attempts.getD 0
    · simp only [if_pos hle]
      simp
      omega
    · simp only [if_neg hle]
      simp
      omega

/-- A candidate with a scheduled interview and zero attempts. -/
def scheduledZeroDoc : CandidateDoc :=
  { candidate_id := "c9"
    call_tracking := { status := some "interview_scheduled",
                       total_attempts := some 0 } }

/-- Witness for C4: status `interview_scheduled` with `total_attempts = 0`
still yields `can_call = false`. -/
theorem C4_witness :
    ([scheduledZeroDoc].find? (fun d => d.candidate_id == "c9")
        = some scheduledZeroDoc) ∧
      scheduledZeroDoc.call_tracking.total_attempts.getD 0 = 0 ∧
      (get_candidate_call_status [scheduledZeroDoc] "c9").can_call = false :=
  ⟨by decide, by decide,
    (C4_contact_governor [scheduledZeroDoc] "c9" scheduledZeroDoc
      (by decide)).1 (by decide)⟩

/-- C10: a stripped transcript shorter than 3 characters always takes the
early re-prompt return, whatever the transcript confidence — the intent
classifier is never invoked on it, so "no" is never classified at the
webhook boundary. -/
theorem C10_short_transcript_reprompt (s : ConversationSession) (sp : String)
    (conf : Nat) (es : Bool) (g : String) (now : Nat)
    (h : (pyStrip sp).length < 3) :
    process_speech s sp conf es g now = SpeechOutcome.reprompt :=
  process_speech_guard s sp conf es g now (Or.inl h)

/-- `update_one` leaves the first matching document in place, transformed,
provided the transformation preserves the query key. -/
theorem updateFirst_find? (p : CandidateDoc → Bool)
    (f : CandidateDoc → CandidateDoc) (hp : ∀ x, p (f x) = p x) :
    ∀ (l : List CandidateDoc) (d : CandidateDoc), l.find? p = some d →
      (updateFirst p f l).1.find? p = some (f d)
  | [], d, h => by simp at h
  | d0 :: rest, d, h => by
    unfold updateFirst
    by_cases h0 : p d0
    · rw [if_pos h0]
      rw [List.find?_cons_of_pos _ h0] at h
      obtain rfl : d0 = d := by injection h
      exact List.find?_cons_of_pos _ (by rw [hp]; exact h0)
    · rw [if_neg h0]
      rw [List.find?_cons_of_neg _ h0] at h
      dsimp only
      rw [List.find?_cons_of_neg _ h0]
      exact updateFirst_find? p f hp rest d h

/-- After one finalizer run the matched document carries exactly the
`$set` call-tracking payload of `update_candidate_interview_scheduled`
(the interview-status `$set` touches only top-level fields). -/
theorem finalize_find (store : List CandidateDoc) (cid call_sid slot : String)
    (es : Bool) (now : Nat) (doc : CandidateDoc)
    (hfind : store.find? (fun d => d.candidate_id == cid) = some doc) :
    ∃ d', (finalize_scheduling store cid call_sid slot es now).find?
        (fun d => d.candidate_id == cid) = some d' ∧
      d'.call_tracking =
        (applyScheduledSet doc ⟨some slot, some now, some call_sid, es⟩
          now).call_tracking := by
  unfold finalize_scheduling update_candidate_interview_scheduled
    update_interview_status
  have h1 := updateFirst_find? (fun d => d.candidate_id == cid)
    (fun d => applyScheduledSet d ⟨some slot, some now, some call_sid, es⟩ now)
    (fun _ => rfl) store doc hfind
  by_cases hb : (updateFirst (fun d => d.candidate_id == cid)
      (fun d => applyScheduledSet d ⟨some slot, some now, some call_sid, es⟩ now)
      store).2 = true
  · rw [if_pos hb]
    have h2 := updateFirst_find? (fun d => d.candidate_id == cid)
      (fun d => applyStatusSet d "interview_scheduled" (some slot)
        (some call_sid) now) (fun _ => rfl) _ _ h1
    exact ⟨_, h2, rfl⟩
  · rw [if_neg hb]
    exact ⟨_, h1, rfl⟩

/-- A bare candidate document for the C6 counterexample. -/
def c6Store : List CandidateDoc := [{ candidate_id := "c1" }]

/-- C6 fails on the code: the finalizer's `$set` is unconditional (no
check-then-set), so re-invoking with the identical
(candidateId, callId, slot) triple at a later time rewrites the stored
schedule (fresh `scheduled_at` / `updated_at`) — it is not a no-op. -/
theorem C6_counterexample :
    finalize_scheduling
        (finalize_scheduling c6Store "c1" "CA1" "Tuesday at 2 PM" false 1)
        "c1" "CA1" "Tuesday at 2 PM" false 2
      ≠ finalize_scheduling c6Store "c1" "CA1" "Tuesday at 2 PM" false 1 := by
  decide

/-- C6 amended: two invocations with the identical (candidateId, callId,
slot) triple leave a single embedded schedule record with the same slot,
and the status value `interview_scheduled` is reached once and kept; but
the second invocation rewrites the record's timestamps
(`scheduled_at`, `confirmation_sent_at`, `updated_at`), so it is not a
no-op on the stored schedule whenever the clock advanced. -/
theorem C6_amended_finalizer (store : List CandidateDoc)
    (cid call_sid slot : String) (es : Bool) (t1 t2 : Nat) (doc : CandidateDoc)
    (hfind : store.find? (fun d => d.candidate_id == cid) = some doc) :
    ∃ d1 d2,
      (finalize_scheduling store cid call_sid slot es t1).find?
          (fun d => d.candidate_id == cid) = some d1 ∧
      (finalize_scheduling (finalize_scheduling store cid call_sid slot es t1)
          cid call_sid slot es t2).find?
          (fun d => d.candidate_id == cid) = some d2 ∧
      d1.call_tracking.status = some "interview_scheduled" ∧
      d2.call_tracking.status = some "interview_scheduled" ∧
      d1.call_tracking.interview_details =
        some ⟨some slot, t1, some call_sid, es, if es then some t1 else none⟩ ∧
      d2.call_tracking.interview_details =
        some ⟨some slot, t2, some call_sid, es, if es then some t2 else none⟩ ∧
      d1.call_tracking.updated_at = some t1 ∧
      d2.call_tracking.updated_at = some t2 ∧
      (t1 ≠ t2 → d1 ≠ d2) := by
  obtain ⟨d1, hf1, hct1⟩ := finalize_find store cid call_sid slot es t1 doc hfind
  obtain ⟨d2, hf2, hct2⟩ :=
    finalize_find _ cid call_sid slot es t2 d1 hf1
  refine ⟨d1, d2, hf1, hf2, ?_, ?_, ?_, ?_, ?_, ?_, ?_⟩
  · rw [hct1]; rfl
  · rw [hct2]; rfl
  · rw [hct1]; rfl
  · rw [hct2]; rfl
  · rw [hct1]; rfl
  · rw [hct2]; rfl
  · intro hne heq
    apply hne
    have h1 : d1.call_tracking.updated_at = some t1 := by rw [hct1]; rfl
    have h2 : d2.call_tracking.updated_at = some t2 := by rw [hct2]; rfl
    rw [heq, h2] at h1
    injection h1 with h
    exact h.symm

/-- Witness for the amended C6 at a concrete store. -/
theorem C6_amended_witness :
    (c6Store.find? (fun d => d.candidate_id == "c1")
        = some { candidate_id := "c1" }) ∧
      ∃ d1 d2,
        (finalize_scheduling c6Store "c1" "CA1" "Tuesday at 2 PM" false 1).find?
            (fun d => d.candidate_id == "c1") = some d1 ∧
        (finalize_scheduling
            (finalize_scheduling c6Store "c1" "CA1" "Tuesday at 2 PM" false 1)
            "c1" "CA1" "Tuesday at 2 PM" false 2).find?
            (fun d => d.candidate_id == "c1") = some d2 ∧
        d1.call_tracking.status = some "interview_scheduled" ∧
        d2.call_tracking.status = some "interview_scheduled" ∧
        d1.call_tracking.interview_details =
          some ⟨some "Tuesday at 2 PM", 1, some "CA1", false, none⟩ ∧
        d2.call_tracking.interview_details =
          some ⟨some "Tuesday at 2 PM", 2, some "CA1", false, none⟩ ∧
        d1.call_tracking.updated_at = some 1 ∧
        d2.call_tracking.updated_at = some 2 ∧
        ((1 : Nat) ≠ 2 → d1 ≠ d2) :=
  ⟨by decide,
    C6_amended_finalizer c6Store "c1" "CA1" "Tuesday at 2 PM" false 1 2
      { candidate_id := "c1" } (by decide)⟩

/-- A call-started callback appends a turn hard-coded with number 1, so a
repeated call-started callback for the same call id yields two turns both
numbered 1: C7 fails on the code. -/
theorem C7_counterexample :
    (runCall (initSession "CA1" "+15550100" 0)
      [CallEvent.callStarted "+15550100" "greet" 0,
       CallEvent.callStarted "+15550100" "greet" 1]).turns.map
        (fun t => t.turn_number) = [1, 1] ∧
    ([1, 1] : List Nat) ≠ iotaFrom 1 2 := by decide

/-- `true` exactly on speech-result callbacks. -/
def isSpeechEvent : CallEvent → Bool
  | .speechResult _ _ _ _ _ => true
  | .callStarted _ _ _ => false

/-- Gapless 1-based turn numbering. -/
def goodNumbering (s : ConversationSession) : Prop :=
  s.turns.map (fun t => t.turn_number) = iotaFrom 1 s.turns.length

theorem iotaFrom_snoc (a : Nat) : ∀ n, iotaFrom a (n + 1) = iotaFrom a n ++ [a + n]
  | 0 => by simp [iotaFrom]
  | n + 1 => by
    rw [iotaFrom, iotaFrom_snoc (a + 1) n, iotaFrom]
    simp [List.cons_append]
    omega

/-- A speech-result callback preserves gapless numbering: either it is
re-prompted away, or it appends one turn numbered `length + 1`. -/
theorem speech_preserves_numbering (s : ConversationSession) (sp : String)
    (conf : Nat) (es : Bool) (g : String) (now : Nat)
    (h : goodNumbering s) :
    goodNumbering (stepSession s (.speechResult sp conf es g now)) := by
  simp only [stepSession]
  by_cases hg : (pyStrip sp).length < 3 ∨ conf < 30
  · rw [process_speech_guard _ _ _ _ _ _ hg]
    exact h
  · push_neg at hg
    rw [process_speech_run _ _ _ _ _ _ (by omega) (by omega)]
    unfold goodNumbering
    have hmap := core_turn_numbers s (pyStrip sp) es g now
    have hlen : (sessionAfter s
        (process_speech_core s (pyStrip sp) es g now)).turns.length
        = s.turns.length + 1 := by
      have := congrArg List.length hmap
      simpa using this
    rw [hmap, hlen, h, iotaFrom_snoc]
    simp [Nat.add_comm]

theorem runCall_speech_numbering :
    ∀ (events : List CallEvent), events.all isSpeechEvent = true →
      ∀ s, goodNumbering s → goodNumbering (runCall s events)
  | [], _, _, h => h
  | e :: rest, hall, s, h => by
    rw [List.all_cons, Bool.and_eq_true] at hall
    obtain ⟨he, hrest⟩ := hall
    unfold runCall
    rw [List.foldl_cons]
    refine runCall_speech_numbering rest hrest _ ?_
    cases e with
    | callStarted f g n => simp [isSpeechEvent] at he
    | speechResult sp c es g n => exact speech_preserves_numbering s sp c es g n h

/-- C7 amended: when exactly one call-started callback arrives, first, the
turn numbers are strictly increasing with no gaps starting at 1 (each
speech-result callback either leaves the session untouched or appends the
turn numbered `length + 1`); a *repeated* call-started callback, however,
records a second turn numbered 1. -/
theorem C7_amended_numbering (call_sid phone from_number greeting : String)
    (t0 n : Nat) (events : List CallEvent)
    (hev : events.all isSpeechEvent = true) :
    goodNumbering (runCall (initSession call_sid phone t0)
      (CallEvent.callStarted from_number greeting n :: events)) := by
  unfold runCall
  rw [List.foldl_cons]
  refine runCall_speech_numbering events hev _ ?_
  simp [goodNumbering, stepSession, twilio_voice_turn, initSession, iotaFrom]

/-- Witness for the amended C7: one call-started callback followed by one
speech-result callback yields turn numbers [1, 2]. -/
theorem C7_amended_witness :
    ([CallEvent.speechResult "hello there" 90 false "gen" 5].all isSpeechEvent
        = true) ∧
      goodNumbering (runCall (initSession "CA1" "+15550100" 0)
        (CallEvent.callStarted "+15550100" "greet" 1 ::
          [CallEvent.speechResult "hello there" 90 false "gen" 5])) :=
  ⟨by decide,
    C7_amended_numbering "CA1" "+15550100" "+15550100" "greet" 0 1
      [CallEvent.speechResult "hello there" 90 false "gen" 5] (by decide)⟩

/-- `List.find?` returns the first element satisfying the predicate. -/
theorem find?_first_split {α : Type} (p : α → Bool) :
    ∀ (l : List α) (b : α), l.find? p = some b →
      ∃ pre post, l = pre ++ b :: post ∧ p b = true ∧ ∀ a ∈ pre, p a = false
  | [], b, h => by simp at h
  | a :: rest, b, h => by
    by_cases hpa : p a
    · rw [List.find?_cons_of_pos _ hpa] at h
      obtain rfl : a = b := by injection h
      exact ⟨[], rest, rfl, hpa, by simp⟩
    · rw [List.find?_cons_of_neg _ hpa] at h
      obtain ⟨pre, post, heq, hpb, hpre⟩ := find?_first_split p rest b h
      refine ⟨a :: pre, post, by rw [heq]; rfl, hpb, ?_⟩
      intro x hx
      rcases List.mem_cons.mp hx with rfl | hx
      · exact Bool.eq_false_iff.mpr hpa
      · exact hpre x hx

/-- C8 fails on the code: the utterance is *not* tokenized — a slot-label
token needs only to occur as a substring of the utterance. For the
utterance "great" and the catalog ["Monday at 10 AM"], the code returns
the slot (its token "at" is inside "great"), while the spec's
tokenized matcher shares no token and must return none. -/
theorem C8_counterexample :
    find_mentioned_time_slot "great" ["Monday at 10 AM"]
        = some "Monday at 10 AM" ∧
      find_slot_spec_tokenized "great" ["Monday at 10 AM"] = none ∧
      find_mentioned_time_slot "great" ["Monday at 10 AM"]
        ≠ find_slot_spec_tokenized "great" ["Monday at 10 AM"] := by decide

/-- C8 amended: the slot matcher returns the first catalog entry (in
catalog order) one of whose lowercased label tokens occurs as a
*substring* of the lowercased utterance; if no entry has such a token it
returns none. (The utterance itself is never tokenized.) -/
theorem C8_amended_matcher (text : String) (slots : List String) :
    (∀ slot, find_mentioned_time_slot text slots = some slot →
      ∃ pre post, slots = pre ++ slot :: post ∧
        slotMatchesSub text slot = true ∧
        ∀ s ∈ pre, slotMatchesSub text s = false) ∧
    (find_mentioned_time_slot text slots = none →
      ∀ s ∈ slots, slotMatchesSub text s = false) := by
  constructor
  · intro slot h
    exact find?_first_split _ slots slot h
  · intro h s hs
    have := List.find?_eq_none.mp h s hs
    exact Bool.eq_false_iff.mpr this

/-- Witness for the amended C8 at a concrete input: "great" matches the
first slot through the substring "at". -/
theorem C8_amended_witness :
    find_mentioned_time_slot "great" TIME_SLOTS = some "Monday at 10 AM" ∧
      ∃ pre post, TIME_SLOTS = pre ++ "Monday at 10 AM" :: post ∧
        slotMatchesSub "great" "Monday at 10 AM" = true ∧
        ∀ s ∈ pre, slotMatchesSub "great" s = false :=
  ⟨by decide,
    (C8_amended_matcher "great" TIME_SLOTS).1 "Monday at 10 AM" (by decide)⟩

/-- C9: when no pattern block matches, the fallback of `analyze_intent`
behaves exactly as specified: under 3 characters → (unclear, 0.1); one
token → (confirmation, 0.8) or (rejection, 0.8) for the known single-word
synonyms, else (unclear, 0.4); two or more tokens → (unclear, 0.5);
otherwise (unclear, 0.3). -/
theorem C9_fallback (text : String)
    (h : patternsResult (pyStrip (pyLower text)).data = none) :
    ((pyStrip (pyLower text)).length < 3 →
      analyze_intent text = ("unclear", 10)) ∧
    (3 ≤ (pyStrip (pyLower text)).length →
      (wsTokens (pyStrip (pyLower text)).data).length = 1 →
      yesSingles.contains (pyStrip (pyLower text)) = true →
      analyze_intent text = ("confirmation", 80)) ∧
    (3 ≤ (pyStrip (pyLower text)).length →
      (wsTokens (pyStrip (pyLower text)).data).length = 1 →
      yesSingles.contains (pyStrip (pyLower text)) = false →
      noSingles.contains (pyStrip (pyLower text)) = true →
      analyze_intent text = ("rejection", 80)) ∧
    (3 ≤ (pyStrip (pyLower text)).length →
      (wsTokens (pyStrip (pyLower text)).data).length = 1 →
      yesSingles.contains (pyStrip (pyLower text)) = false →
      noSingles.contains (pyStrip (pyLower text)) = false →
      analyze_intent text = ("unclear", 40)) ∧
    (3 ≤ (pyStrip (pyLower text)).length →
      2 ≤ (wsTokens (pyStrip (pyLower text)).data).length →
      analyze_intent text = ("unclear", 50)) ∧
    (3 ≤ (pyStrip (pyLower text)).length →
      (wsTokens (pyStrip (pyLower text)).data).length = 0 →
      analyze_intent text = ("unclear", 30)) := by
  simp only [analyze_intent, h]
  refine ⟨?_, ?_, ?_, ?_, ?_, ?_⟩
  · intro h1
    rw [if_pos h1]
  · intro h1 h2 h3
    rw [if_neg (by omega), if_pos h2, if_pos h3]
  · intro h1 h2 h3 h4
    rw [if_neg (by omega), if_pos h2, if_neg (by simp only [h3]; decide),
      if_pos h4]
  · intro h1 h2 h3 h4
    rw [if_neg (by omega), if_pos h2, if_neg (by simp only [h3]; decide),
      if_neg (by simp only [h4]; decide)]
  · intro h1 h2
    rw [if_neg (by omega), if_neg (by omega), if_pos h2]
  · intro h1 h2
    rw [if_neg (by omega), if_neg (by omega), if_neg (by omega)]

/-- Witness for C9: "nah" matches no pattern, is one token of length 3 and
a known negative synonym — classified (rejection, 0.8). -/
theorem C9_witness :
    patternsResult (pyStrip (pyLower "nah")).data = none ∧
      analyze_intent "nah" = ("rejection", 80) :=
  ⟨by decide,
    (C9_fallback "nah" (by decide)).2.2.1 (by decide) (by decide) (by decide)
      (by decide)⟩

/-- Witness for C10: the utterance "no" with high transcript confidence is
re-prompted, not classified. -/
theorem C10_witness :
    (pyStrip "no").length < 3 ∧
      process_speech twoTurnSession "no" 95 false "gen" 3 =
        SpeechOutcome.reprompt :=
  ⟨by decide,
    C10_short_transcript_reprompt twoTurnSession "no" 95 false "gen" 3
      (by decide)⟩

end InterviewCaller
